import Mathlib

/-!
Verification of the claude-session-analyzer scripts: a shallow embedding of
`claude_session_analyzer.py` (JSON session parsing, glob-based file discovery,
the change-detection polling loop, and the JSON export), together with proofs
of the specified properties.
-/

mutual

/-- A JSON value, as produced by `json.load`. Numbers are modelled as integers
(the timestamps consumed by the analyzer are epoch milliseconds). -/
inductive JValue where
  | str : String → JValue
  | num : Int → JValue
  | boolean : Bool → JValue
  | null : JValue
  | arr : JArray → JValue
  | obj : JObject → JValue

/-- A JSON array (list of values). -/
inductive JArray where
  | nil : JArray
  | cons : JValue → JArray → JArray

/-- A JSON object: an ordered list of key/value pairs. -/
inductive JObject where
  | nil : JObject
  | cons : String → JValue → JObject → JObject

end

deriving instance DecidableEq for JValue
deriving instance DecidableEq for JArray
deriving instance DecidableEq for JObject

/-- Build a JSON object from a list of key/value pairs. -/
def JObject.ofList : List (String × JValue) → JObject
  | [] => .nil
  | (k, v) :: rest => .cons k v (JObject.ofList rest)

/-- Look up a key in a JSON object. `json.load` builds a Python dict, where a
duplicated key keeps its last occurrence, so later pairs shadow earlier ones. -/
def JObject.get : JObject → String → Option JValue
  | .nil, _ => none
  | .cons k v rest, key =>
      match JObject.get rest key with
      | some w => some w
      | none => if k == key then some v else none

/-- The `x / 1000` step of the parser: division succeeds exactly when the JSON
value is a number (Python `bool` is an `int` subtype, so `True / 1000` also
succeeds); any other type raises `TypeError`. -/
def JValue.asNumber : JValue → Option Int
  | .num n => some n
  | .boolean b => some (if b then 1 else 0)
  | _ => none

/-- What `open` plus `json.load` can observe of a file: the file may be absent,
unreadable, hold text that is not valid JSON, or hold a JSON document. -/
inductive FileContent where
  | absent : FileContent
  | unreadable : FileContent
  | invalidJSON : FileContent
  | json : JValue → FileContent
deriving DecidableEq

/-- The dictionary returned by `analyze_session_file`. Timestamps are epoch
milliseconds; `duration` is in milliseconds (`last_update - start_time`).
`session_id` is whatever value sat under the `sessionID` key (the source does
not type-check it). -/
structure SessionRecord where
  session_id : JValue
  start_time : Int
  last_update : Int
  duration : Int
  file_path : String
deriving DecidableEq

/-- The earliest instant `datetime` can represent, 0001-01-01T00:00:00, in
epoch milliseconds: 719162 days of 86400 seconds before the epoch. -/
def minTimestampMs : Int := -62135596800000

/-- The last whole millisecond `datetime` can represent,
9999-12-31T23:59:59.999, in epoch milliseconds. -/
def maxTimestampMs : Int := 253402300799999

/-- Whether `datetime.datetime.fromtimestamp(ms / 1000)` succeeds: the
instant must fall inside `datetime`'s representable years 1 to 9999, else
Python raises (the bounds used here are the UTC ones; the host's UTC offset
can shift the exact cutoff by at most a day, far below the magnitudes that
matter here). -/
def inDatetimeRange (ms : Int) : Bool :=
  decide (minTimestampMs ≤ ms) && decide (ms ≤ maxTimestampMs)

/-- `analyze_session_file`: read the file, `json.load` it, convert `startTime`
and `lastUpdate` from epoch milliseconds via `fromtimestamp`, compute the
duration and return the record; any failure (missing file, unreadable file,
bad JSON, non-object document, missing key, non-numeric timestamp, timestamp
outside `datetime`'s representable range) is caught by the bare `except` and
yields `None`. -/
def analyze_session_file (session_file : String) (content : FileContent) :
    Option SessionRecord :=
  match content with
  | .json (.obj data) =>
      match data.get "startTime", data.get "lastUpdate", data.get "sessionID" with
      | some stv, some luv, some sid =>
          match stv.asNumber, luv.asNumber with
          | some start_time, some last_update =>
              if inDatetimeRange start_time && inDatetimeRange last_update then
                some { session_id := sid, start_time := start_time,
                       last_update := last_update,
                       duration := last_update - start_time,
                       file_path := session_file }
              else none
          | _, _ => none
      | _, _, _ => none
  | _ => none

/-- `timedelta.total_seconds()` of the record's duration: milliseconds over
1000, as an exact rational. -/
def SessionRecord.durationSeconds (r : SessionRecord) : Rat :=
  (r.duration : Rat) / 1000

/-- `fnmatch`-style matching of one glob pattern component against one path
component: a star matches any (possibly empty) run of characters, every other
character matches itself (the analyzer's patterns use no other glob syntax). -/
def globChars : List Char → List Char → Bool
  | [], cs => cs.isEmpty
  | p :: ps, cs =>
      if p == '*' then (cs.tails).any (fun suffix => globChars ps suffix)
      else
        match cs with
        | [] => false
        | c :: cs2 => p == c && globChars ps cs2

/-- Whether a file name is hidden: its first character is a dot. -/
def startsWithDot (s : String) : Bool :=
  match s.toList with
  | [] => false
  | c :: _ => c == '.'

/-- The per-component match of `glob.glob`: a pattern component that does not
itself start with a dot never matches a hidden (dot-leading) name. -/
def globComponent (pat name : String) : Bool :=
  if startsWithDot name && !startsWithDot pat then false
  else globChars pat.toList name.toList

/-- Matching a full pattern against a full path (both as component lists), as
`glob.glob` does when `recursive=True` is not passed: components are matched
positionally, so a `**` component behaves like `*` and spans exactly one path
component. -/
def globMatchPath : List String → List String → Bool
  | [], [] => true
  | p :: ps, c :: cs => globComponent p c && globMatchPath ps cs
  | _, _ => false

/-- The two glob patterns of `find_session_data`, as component lists relative
to the home directory: `.claude/statsig/statsig.session_id.*` and
`.claude/**/*.json`. -/
def sessionPatterns : List (List String) :=
  [[".claude", "statsig", "statsig.session_id.*"],
   [".claude", "**", "*.json"]]

/-- `find_session_data`: the filesystem is modelled as the list of its file
paths (component lists relative to the home directory, in enumeration order);
for each pattern in turn, the matching paths are appended to the result, with
no deduplication. -/
def find_session_data (fs : List (List String)) : List (List String) :=
  sessionPatterns.foldl
    (fun acc pat => acc ++ fs.filter (fun path => globMatchPath pat path)) []

/-- Whether the first character list begins the second. -/
def charsLead : List Char → List Char → Bool
  | [], _ => true
  | _ :: _, [] => false
  | a :: as, b :: bs => a == b && charsLead as bs

/-- Whether the first character list occurs contiguously inside the second. -/
def charsWithin (needle : List Char) : List Char → Bool
  | [] => needle.isEmpty
  | c :: cs => charsLead needle (c :: cs) || charsWithin needle cs

/-- Python's substring test `needle in hay`. -/
def strContains (hay needle : String) : Bool :=
  charsWithin needle.toList hay.toList

/-- Milliseconds per day, used to turn the `days` recency window into epoch
milliseconds. -/
def msPerDay : Int := 86400000

/-- The session half of `analyze_recent_activity`: scan the files in discovery
order, keep only paths containing the substring `session_id`, parse each, drop
parse failures, and keep records whose start time is strictly later than
`days` days before `now_ms`; the result is the list of records printed. -/
def analyze_recent_activity (now_ms : Int) (days : Int)
    (files : List (String × FileContent)) : List SessionRecord :=
  let week_ago := now_ms - days * msPerDay
  (files.filter (fun pf => strContains pf.1 "session_id")).filterMap
    (fun pf =>
      match analyze_session_file pf.1 pf.2 with
      | some r => if week_ago < r.start_time then some r else none
      | none => none)

/-- The fields printed by the monitor when an update is detected. -/
structure UpdateEvent where
  session_id : JValue
  duration : Int
  last_update : Int
deriving DecidableEq

/-- One iteration of the `monitor_live_session` loop: re-parse the target
file; on parse failure keep the held record and print nothing; on success, if
the new record differs from the held one (initially `None`), print an update
and hold the new record, otherwise do nothing. -/
def monitor_tick (session_file : String) (last_data : Option SessionRecord)
    (content : FileContent) : Option SessionRecord × Option UpdateEvent :=
  match analyze_session_file session_file content with
  | none => (last_data, none)
  | some current_data =>
      if last_data = some current_data then (last_data, none)
      else (some current_data,
            some { session_id := current_data.session_id,
                   duration := current_data.duration,
                   last_update := current_data.last_update })

/-- Running the monitor loop over a finite trace of observed file contents
(one per 5-second tick), starting from held state `last_data`; returns the
final held record and the update events emitted, in order. -/
def monitor_run (session_file : String) (last_data : Option SessionRecord) :
    List FileContent → Option SessionRecord × List UpdateEvent
  | [] => (last_data, [])
  | c :: cs =>
      let step := monitor_tick session_file last_data c
      let rest := monitor_run session_file step.1 cs
      (rest.1, step.2.toList ++ rest.2)

/-- One entry of the export's `sessions` array (`duration_seconds` is
`timedelta.total_seconds()`, an exact rational here). -/
structure ExportSession where
  session_id : JValue
  start_time : Int
  last_update : Int
  duration_seconds : Rat
  file_path : String
deriving DecidableEq

/-- One entry of the export's `todo_activity` array: file name and
modification time; the file's content is never read. -/
structure TodoEntry where
  file_name : String
  modification_time : Int
deriving DecidableEq

/-- The document written by `export_session_data`. -/
structure ExportDoc where
  export_time : Int
  sessions : List ExportSession
  todo_activity : List TodoEntry
deriving DecidableEq

/-- `export_session_data`: build the document from the discovered files (paths
containing `session_id`, parse failures skipped) and the todo directory
entries, write it out, and print the lengths of the document's two lists.
Returns the written document together with the two reported counts. -/
def export_session_data (now_ms : Int) (files : List (String × FileContent))
    (todos : List TodoEntry) : ExportDoc × Nat × Nat :=
  let sessions :=
    (files.filter (fun pf => strContains pf.1 "session_id")).filterMap
      (fun pf =>
        (analyze_session_file pf.1 pf.2).map (fun r =>
          { session_id := r.session_id, start_time := r.start_time,
            last_update := r.last_update,
            duration_seconds := r.durationSeconds,
            file_path := r.file_path }))
  let doc : ExportDoc :=
    { export_time := now_ms, sessions := sessions, todo_activity := todos }
  (doc, doc.sessions.length, doc.todo_activity.length)

/-- A well-formed session object used as a concrete test input. -/
def sampleObj : JObject := JObject.ofList
  [("sessionID", .str "s"), ("startTime", .num 0), ("lastUpdate", .num 1000)]

/-- The file content holding `sampleObj`. -/
def sampleContent : FileContent := .json (.obj sampleObj)

/-- The record parsed from `sampleContent` at path `a`. -/
def recordA : SessionRecord := ⟨.str "s", 0, 1000, 1000, "a"⟩

/-- The record parsed from `sampleContent` at path `b`. -/
def recordB : SessionRecord := ⟨.str "s", 0, 1000, 1000, "b"⟩

/-- A session object whose `sessionID` is the empty string. -/
def emptyIdObj : JObject := JObject.ofList
  [("sessionID", .str ""), ("startTime", .num 0), ("lastUpdate", .num 5000)]

/-- A session object missing the `startTime` and `lastUpdate` keys. -/
def noKeyObj : JObject := JObject.ofList [("sessionID", .str "x")]

/-- A JSON file that matches both locator patterns:
`~/.claude/statsig/statsig.session_id.2.json`. -/
def dupFile : List String := [".claude", "statsig", "statsig.session_id.2.json"]

/-- A JSON file nested two directory levels below the base directory:
`~/.claude/projects/sub/x.json`. -/
def nestedFile : List String := [".claude", "projects", "sub", "x.json"]

/-- Case analysis of the parser: it returns `none`, or the content is a JSON
object carrying all three required keys with numeric, representable
timestamps and the returned record is built exactly from those values. -/
theorem analyze_session_file_cases (p : String) (c : FileContent) :
    analyze_session_file p c = none ∨
    ∃ data sid stv luv st lu, c = FileContent.json (JValue.obj data) ∧
      JObject.get data "sessionID" = some sid ∧
      JObject.get data "startTime" = some stv ∧ JValue.asNumber stv = some st ∧
      JObject.get data "lastUpdate" = some luv ∧ JValue.asNumber luv = some lu ∧
      inDatetimeRange st = true ∧ inDatetimeRange lu = true ∧
      analyze_session_file p c = some ⟨sid, st, lu, lu - st, p⟩ := by
  cases c with
  | absent => left; rfl
  | unreadable => left; rfl
  | invalidJSON => left; rfl
  | json v =>
    cases v with
    | str s => left; rfl
    | num n => left; rfl
    | boolean b => left; rfl
    | null => left; rfl
    | arr a1 => left; rfl
    | obj data =>
      cases hst : data.get "startTime" with
      | none => left; simp [analyze_session_file, hst]
      | some stv =>
        cases hlu : data.get "lastUpdate" with
        | none => left; simp [analyze_session_file, hst, hlu]
        | some luv =>
          cases hsid : data.get "sessionID" with
          | none => left; simp [analyze_session_file, hst, hlu, hsid]
          | some sid =>
            cases hstn : stv.asNumber with
            | none => left; simp [analyze_session_file, hst, hlu, hsid, hstn]
            | some st =>
              cases hlun : luv.asNumber with
              | none => left; simp [analyze_session_file, hst, hlu, hsid, hstn, hlun]
              | some lu =>
                cases hr : (inDatetimeRange st && inDatetimeRange lu) with
                | false =>
                  left
                  simp [analyze_session_file, hst, hlu, hsid, hstn, hlun, hr]
                | true =>
                  rw [Bool.and_eq_true] at hr
                  right
                  exact ⟨data, sid, stv, luv, st, lu, rfl, hsid, hst, hstn, hlu,
                    hlun, hr.1, hr.2,
                    by simp [analyze_session_file, hst, hlu, hsid, hstn, hlun,
                      hr.1, hr.2]⟩

/-- Every record the parser returns has its duration derived from its own
timestamps and carries the path it was parsed from. -/
theorem analyze_duration (p : String) (c : FileContent) (r : SessionRecord)
    (h : analyze_session_file p c = some r) :
    r.duration = r.last_update - r.start_time ∧ r.file_path = p := by
  rcases analyze_session_file_cases p c with hn | ⟨data, sid, stv, luv, st, lu,
      hc, hsid, hstv, hstn, hluv, hlun, hstr, hlur, hres⟩
  · rw [hn] at h; cases h
  · rw [hres] at h
    cases h
    exact ⟨rfl, rfl⟩

/-- A session file that is valid JSON with a string `sessionID` and numeric
`startTime` ≤ `lastUpdate`, whose `lastUpdate` (3·10^14 epoch-ms, about year
11476) lies past `datetime`'s year-9999 limit. -/
def outOfRangeObj : JObject := JObject.ofList
  [("sessionID", .str "s"), ("startTime", .num 0),
   ("lastUpdate", .num 300000000000000)]

/-- C1 counterexample: valid JSON with string `sessionID` and numeric
`startTime ≤ lastUpdate`, yet the parser yields no record, because
`fromtimestamp` raises on the out-of-range `lastUpdate` and the bare
`except` returns `None`. -/
theorem parse_out_of_range_fails :
    analyze_session_file "c" (.json (.obj outOfRangeObj)) = none := by
  rfl

/-- C1 amended: for valid JSON with a string `sessionID` and numeric
`startTime` and `lastUpdate`, both within `datetime`'s representable range
(years 1 to 9999) and with `startTime ≤ lastUpdate`, `analyze_session_file`
succeeds and the record's duration is `(lastUpdate - startTime) / 1000`
seconds, which is non-negative. -/
theorem parse_valid_session (p : String) (data : JObject) (sid : String)
    (stv luv : JValue) (st lu : Int)
    (hsid : data.get "sessionID" = some (.str sid))
    (hst : data.get "startTime" = some stv) (hstn : stv.asNumber = some st)
    (hlu : data.get "lastUpdate" = some luv) (hlun : luv.asNumber = some lu)
    (hstr : inDatetimeRange st = true) (hlur : inDatetimeRange lu = true)
    (hle : st ≤ lu) :
    ∃ r, analyze_session_file p (.json (.obj data)) = some r ∧
      r.session_id = .str sid ∧
      r.durationSeconds = ((lu - st : Int) : Rat) / 1000 ∧
      0 ≤ r.durationSeconds := by
  refine ⟨⟨.str sid, st, lu, lu - st, p⟩, ?_, rfl, rfl, ?_⟩
  · simp [analyze_session_file, hsid, hst, hstn, hlu, hlun, hstr, hlur]
  · have hnum : (0 : Rat) ≤ ((lu - st : Int) : Rat) := by
      exact_mod_cast Int.sub_nonneg.mpr hle
    exact div_nonneg hnum (by norm_num)

/-- Witness for C1 at a concrete well-formed session file. -/
theorem parse_valid_session_witness :
    ∃ r, analyze_session_file "a" (.json (.obj sampleObj)) = some r ∧
      r.session_id = .str "s" ∧
      r.durationSeconds = ((1000 - 0 : Int) : Rat) / 1000 ∧
      0 ≤ r.durationSeconds :=
  parse_valid_session "a" sampleObj "s" (.num 0) (.num 1000) 0 1000
    rfl rfl rfl rfl rfl (by decide) (by decide) (by decide)

/-- C10: for every path and every file content, `analyze_session_file` is a
total function into `Option`: it returns `none`, or a record built from the
required keys of a JSON object; no other outcome (in particular no propagated
exception) exists. -/
theorem analyze_total (p : String) (c : FileContent) :
    analyze_session_file p c = none ∨
    ∃ data sid stv luv st lu, c = FileContent.json (JValue.obj data) ∧
      JObject.get data "sessionID" = some sid ∧
      JObject.get data "startTime" = some stv ∧ JValue.asNumber stv = some st ∧
      JObject.get data "lastUpdate" = some luv ∧ JValue.asNumber luv = some lu ∧
      analyze_session_file p c = some ⟨sid, st, lu, lu - st, p⟩ := by
  rcases analyze_session_file_cases p c with hn | ⟨data, sid, stv, luv, st, lu,
      hc, hsid, hstv, hstn, hluv, hlun, hstr, hlur, hres⟩
  · exact Or.inl hn
  · exact Or.inr ⟨data, sid, stv, luv, st, lu, hc, hsid, hstv, hstn, hluv,
      hlun, hres⟩

/-- C4: a JSON object missing any required key yields no record, the file is
excluded from the recent-activity report and from the export (removing it
from the scanned list leaves both results unchanged), and both batch
operations still complete on the remaining files. -/
theorem missing_key_excluded (p : String) (data : JObject)
    (hmiss : data.get "sessionID" = none ∨ data.get "startTime" = none ∨
             data.get "lastUpdate" = none) :
    analyze_session_file p (.json (.obj data)) = none ∧
    (∀ now_ms days pre post,
      analyze_recent_activity now_ms days (pre ++ (p, .json (.obj data)) :: post) =
        analyze_recent_activity now_ms days (pre ++ post)) ∧
    (∀ now_ms todos pre post,
      export_session_data now_ms (pre ++ (p, .json (.obj data)) :: post) todos =
        export_session_data now_ms (pre ++ post) todos) := by
  have hnone : analyze_session_file p (.json (.obj data)) = none := by
    rcases analyze_session_file_cases p (.json (.obj data)) with hn |
      ⟨data2, sid, stv, luv, st, lu, hc, hsid, hstv, hstn, hluv, hlun, hstr,
        hlur, hres⟩
    · exact hn
    · cases hc
      rcases hmiss with h | h | h
      · rw [h] at hsid; cases hsid
      · rw [h] at hstv; cases hstv
      · rw [h] at hluv; cases hluv
  refine ⟨hnone, ?_, ?_⟩
  · intro now_ms days pre post
    unfold analyze_recent_activity
    simp only [List.filter_append, List.filterMap_append, List.filter_cons]
    cases hc : strContains p "session_id" <;> simp [hnone]
  · intro now_ms todos pre post
    unfold export_session_data
    simp only [List.filter_append, List.filterMap_append, List.filter_cons]
    cases hc : strContains p "session_id" <;> simp [hnone]

/-- Witness for C4 at a concrete file missing `startTime` and `lastUpdate`. -/
theorem missing_key_excluded_witness :
    analyze_session_file "x/session_id/y" (.json (.obj noKeyObj)) = none ∧
    analyze_recent_activity 0 7 [("x/session_id/y", .json (.obj noKeyObj))] =
      analyze_recent_activity 0 7 [] := by
  have h := missing_key_excluded "x/session_id/y" noKeyObj (Or.inr (Or.inl rfl))
  exact ⟨h.1, h.2.1 0 7 [] []⟩

/-- C5: two consecutive monitor ticks over identical file content emit at most
one update event in total: whatever the second tick parses equals what the
first tick now holds, so the second tick is always silent. -/
theorem monitor_second_tick_silent (p : String) (st : Option SessionRecord)
    (c : FileContent) :
    (monitor_tick p (monitor_tick p st c).1 c).2 = none ∧
    (monitor_tick p st c).2.toList.length +
      (monitor_tick p (monitor_tick p st c).1 c).2.toList.length ≤ 1 := by
  cases h : analyze_session_file p c with
  | none => simp [monitor_tick, h]
  | some r =>
    by_cases hst : st = some r
    · simp [monitor_tick, h, hst]
    · simp [monitor_tick, h, hst]

/-- C6: a tick whose parse fails keeps the held record, emits nothing, and the
loop goes on: deleting such a tick from any trace changes neither the final
held record nor the emitted events. -/
theorem monitor_failure_skipped (p : String) (st : Option SessionRecord)
    (c : FileContent) (h : analyze_session_file p c = none) :
    monitor_tick p st c = (st, none) ∧
    ∀ pre post, monitor_run p st (pre ++ c :: post) =
      monitor_run p st (pre ++ post) := by
  have htick : ∀ s, monitor_tick p s c = (s, none) := by
    intro s; unfold monitor_tick; rw [h]
  refine ⟨htick st, ?_⟩
  intro pre post
  induction pre generalizing st with
  | nil => simp [monitor_run, htick]
  | cons a as ih => simp [monitor_run, ih]

/-- Witness for C6: a tick that reads unparsable text leaves the idle monitor
idle and silent. -/
theorem monitor_failure_skipped_witness :
    monitor_tick "m" none FileContent.invalidJSON = (none, none) ∧
    monitor_run "m" none [FileContent.invalidJSON] = monitor_run "m" none [] := by
  have h := monitor_failure_skipped "m" none FileContent.invalidJSON rfl
  exact ⟨h.1, h.2 [] []⟩

/-- C7 counterexample: parsing the same content at two different paths yields
records agreeing on identifier, start, and last-update that are nevertheless
unequal, because record equality also compares the carried file path. -/
theorem record_eq_ignores_path_false :
    analyze_session_file "a" sampleContent = some recordA ∧
    analyze_session_file "b" sampleContent = some recordB ∧
    recordA.session_id = recordB.session_id ∧
    recordA.start_time = recordB.start_time ∧
    recordA.last_update = recordB.last_update ∧
    recordA ≠ recordB := by
  refine ⟨rfl, rfl, rfl, rfl, rfl, ?_⟩
  decide

/-- C7 amended: for records produced by the parser, equality holds iff
identifier, start, last-update, and source file path all agree (duration is
derived from the timestamps, so it adds nothing); equality therefore does
depend on the file path. -/
theorem record_eq_iff (p1 p2 : String) (c1 c2 : FileContent)
    (r1 r2 : SessionRecord)
    (h1 : analyze_session_file p1 c1 = some r1)
    (h2 : analyze_session_file p2 c2 = some r2) :
    r1 = r2 ↔ (r1.session_id = r2.session_id ∧ r1.start_time = r2.start_time ∧
      r1.last_update = r2.last_update ∧ r1.file_path = r2.file_path) := by
  have d1 := (analyze_duration p1 c1 r1 h1).1
  have d2 := (analyze_duration p2 c2 r2 h2).1
  constructor
  · intro h; subst h; exact ⟨rfl, rfl, rfl, rfl⟩
  · rintro ⟨hs, hst, hlu, hfp⟩
    cases r1; cases r2
    simp_all

/-- Witness for C7 amended, applied to one concrete parsed record. -/
theorem record_eq_iff_witness :
    recordA = recordA ↔ (recordA.session_id = recordA.session_id ∧
      recordA.start_time = recordA.start_time ∧
      recordA.last_update = recordA.last_update ∧
      recordA.file_path = recordA.file_path) :=
  record_eq_iff "a" "a" sampleContent sampleContent recordA recordA rfl rfl

/-- Number of occurrences of a path in a list of paths. -/
def countOcc (path : List String) : List (List String) → Nat
  | [] => 0
  | q :: rest => (if q = path then 1 else 0) + countOcc path rest

/-- Occurrence counting distributes over list append. -/
theorem countOcc_append (path : List String) (l1 l2 : List (List String)) :
    countOcc path (l1 ++ l2) = countOcc path l1 + countOcc path l2 := by
  induction l1 with
  | nil => simp [countOcc]
  | cons q rest ih => simp [countOcc, ih]; omega

/-- Occurrences surviving a filter: all of them when the predicate holds of
the path, none otherwise. -/
theorem countOcc_filter (path : List String) (m : List String → Bool)
    (fs : List (List String)) :
    countOcc path (fs.filter m) = if m path then countOcc path fs else 0 := by
  induction fs with
  | nil => simp [countOcc]
  | cons q rest ih =>
    by_cases hq : q = path
    · subst hq
      cases hm : m q <;> simp [List.filter_cons, hm, countOcc, ih]
    · cases hm : m q <;> simp [List.filter_cons, hm, countOcc, ih, hq]

/-- In a duplicate-free list, each path occurs once if present, else never. -/
theorem countOcc_eq_of_nodup (path : List String) (fs : List (List String))
    (hfs : fs.Nodup) :
    countOcc path fs = if path ∈ fs then 1 else 0 := by
  induction fs with
  | nil => simp [countOcc]
  | cons q rest ih =>
    rw [List.nodup_cons] at hfs
    by_cases hq : q = path
    · subst hq
      simp [countOcc, ih hfs.2, hfs.1]
    · simp [countOcc, ih hfs.2, hq, Ne.symm hq]

/-- C2: the locator misses JSON files nested more than one directory below
the base directory: with the filesystem holding exactly the file
`~/.claude/projects/sub/x.json`, `find_session_data` returns nothing, because
`glob.glob` is invoked without `recursive=True` and `**` spans exactly one
path component. -/
theorem find_session_data_misses_nested :
    nestedFile ∈ [nestedFile] ∧ find_session_data [nestedFile] = [] := by
  refine ⟨List.mem_singleton.mpr rfl, ?_⟩
  rfl

/-- C3 counterexample: the file
`~/.claude/statsig/statsig.session_id.2.json` matches both locator patterns
and is returned twice. -/
theorem find_session_data_duplicate :
    countOcc dupFile (find_session_data [dupFile]) = 2 := by
  rfl

/-- C3 amended: the locator concatenates the two patterns' match lists with no
deduplication; over a duplicate-free filesystem each path therefore occurs at
most twice, and occurs twice exactly when it is a file matching both the
`statsig.session_id.*` pattern and the `**/*.json` pattern. -/
theorem find_session_data_occurrences (fs : List (List String)) (hfs : fs.Nodup)
    (path : List String) :
    countOcc path (find_session_data fs) ≤ 2 ∧
    (2 ≤ countOcc path (find_session_data fs) ↔
      path ∈ fs ∧
      globMatchPath [".claude", "statsig", "statsig.session_id.*"] path = true ∧
      globMatchPath [".claude", "**", "*.json"] path = true) := by
  have hsplit : find_session_data fs =
      fs.filter (fun q => globMatchPath [".claude", "statsig", "statsig.session_id.*"] q) ++
        fs.filter (fun q => globMatchPath [".claude", "**", "*.json"] q) := rfl
  rw [hsplit, countOcc_append, countOcc_filter, countOcc_filter,
    countOcc_eq_of_nodup path fs hfs]
  by_cases h1 : globMatchPath [".claude", "statsig", "statsig.session_id.*"] path = true <;>
    by_cases h2 : globMatchPath [".claude", "**", "*.json"] path = true <;>
    by_cases hm : path ∈ fs <;>
    simp [h1, h2, hm]

/-- Witness for C3 amended, at the one-file filesystem holding `dupFile`. -/
theorem find_session_data_occurrences_witness :
    countOcc dupFile (find_session_data [dupFile]) ≤ 2 ∧
    (2 ≤ countOcc dupFile (find_session_data [dupFile]) ↔
      dupFile ∈ [dupFile] ∧
      globMatchPath [".claude", "statsig", "statsig.session_id.*"] dupFile = true ∧
      globMatchPath [".claude", "**", "*.json"] dupFile = true) :=
  find_session_data_occurrences [dupFile] (List.nodup_singleton dupFile) dupFile

/-- C9 counterexample: a session file whose `sessionID` is the empty string
still yields a record, and that record's identifier is the empty string. -/
theorem empty_session_id_accepted :
    analyze_session_file "e" (.json (.obj emptyIdObj)) =
      some ⟨.str "", 0, 5000, 5000, "e"⟩ := by
  rfl

/-- C9 amended: the parser never inspects the value stored under `sessionID`:
whatever that value is — the empty string included — it is copied into the
record unvalidated, provided the two timestamps are present, numeric, and
within `datetime`'s representable range. -/
theorem parse_keeps_any_session_id (p : String) (data : JObject)
    (v stv luv : JValue) (st lu : Int)
    (hsid : data.get "sessionID" = some v)
    (hst : data.get "startTime" = some stv) (hstn : stv.asNumber = some st)
    (hlu : data.get "lastUpdate" = some luv) (hlun : luv.asNumber = some lu)
    (hstr : inDatetimeRange st = true) (hlur : inDatetimeRange lu = true) :
    analyze_session_file p (.json (.obj data)) = some ⟨v, st, lu, lu - st, p⟩ := by
  simp [analyze_session_file, hsid, hst, hstn, hlu, hlun, hstr, hlur]

/-- Witness for C9 amended, at the empty-identifier session file. -/
theorem parse_keeps_any_session_id_witness :
    analyze_session_file "w" (.json (.obj emptyIdObj)) =
      some ⟨.str "", 0, 5000, 5000, "w"⟩ :=
  parse_keeps_any_session_id "w" emptyIdObj (.str "") (.num 0) (.num 5000)
    0 5000 rfl rfl rfl rfl rfl (by decide) (by decide)

/-- C8: the session and todo counts `export_session_data` reports are the
lengths of the two lists of the document it writes, and every
`duration_seconds` in the document is `(last_update - start_time)` in
seconds. -/
theorem export_counts_and_durations (now_ms : Int)
    (files : List (String × FileContent)) (todos : List TodoEntry) :
    (export_session_data now_ms files todos).2.1 =
        (export_session_data now_ms files todos).1.sessions.length ∧
    (export_session_data now_ms files todos).2.2 =
        (export_session_data now_ms files todos).1.todo_activity.length ∧
    ∀ s ∈ (export_session_data now_ms files todos).1.sessions,
      s.duration_seconds = ((s.last_update - s.start_time : Int) : Rat) / 1000 := by
  refine ⟨rfl, rfl, ?_⟩
  intro s hs
  have hs2 : s ∈ (files.filter (fun pf => strContains pf.1 "session_id")).filterMap
      (fun pf => (analyze_session_file pf.1 pf.2).map (fun r =>
        ({ session_id := r.session_id, start_time := r.start_time,
           last_update := r.last_update, duration_seconds := r.durationSeconds,
           file_path := r.file_path } : ExportSession))) := hs
  rw [List.mem_filterMap] at hs2
  obtain ⟨pf, hpf, hmap⟩ := hs2
  rw [Option.map_eq_some'] at hmap
  obtain ⟨r, hr, hs_eq⟩ := hmap
  have hd := (analyze_duration pf.1 pf.2 r hr).1
  subst hs_eq
  simp [SessionRecord.durationSeconds, hd]

/-- The single entry exported from `sampleContent` at path `session_id`. -/
def exportEntrySample : ExportSession :=
  { session_id := .str "s", start_time := 0, last_update := 1000,
    duration_seconds := ((1000 - 0 : Int) : Rat) / 1000,
    file_path := "session_id" }

/-- Witness for C8 at a one-session export. -/
theorem export_counts_and_durations_witness :
    (export_session_data 0 [("session_id", sampleContent)] []).2.1 =
      (export_session_data 0 [("session_id", sampleContent)] []).1.sessions.length ∧
    exportEntrySample.duration_seconds =
      ((exportEntrySample.last_update - exportEntrySample.start_time : Int) : Rat) / 1000 := by
  have h := export_counts_and_durations 0 [("session_id", sampleContent)] []
  have hmem : exportEntrySample ∈
      (export_session_data 0 [("session_id", sampleContent)] []).1.sessions :=
    show exportEntrySample ∈ [exportEntrySample] from List.mem_singleton.mpr rfl
  exact ⟨h.1, h.2.2 exportEntrySample hmem⟩
